import Mathlib

/-!
Verification development for the food-demand-forecasting repository
(`src/InventoryExpiryTracker.py`).  The file embeds the two analysis
entry points — `check_inventory_expiry` (with its helper `validate_item`)
and `predict_cashflow_risk` (with `calculate_confidence` and
`generate_recommendations`) — as executable Lean definitions and proves
the frozen claims about them.

Modelling conventions:
* Python numbers (int/float) are modelled as exact rationals `ℚ`;
  `round(x, 2)` is modelled as exact round-half-to-even on `ℚ` and
  `int(x)` as truncation toward zero.
* Loosely typed dictionary values are modelled by `FieldVal`
  (a number, a string, or Python `None`); an absent dictionary key is
  `Option.none` around a `FieldVal`.
* `datetime.fromisoformat` / `pd.to_datetime` are modelled on the
  date-only `YYYY-MM-DD` format that the program documents and uses;
  a value of any other shape fails to parse.
* The ambient wall clock (`datetime.now()`) is passed in explicitly as
  a `Date` argument; ISO timestamp strings in results are carried as
  the `Date` value itself.
-/

/-- Python `None`, a number, or a string — the value space of the loosely
typed record fields handled by the program. -/
inductive FieldVal where
  | num (q : ℚ)
  | str (s : String)
  | pynone
deriving DecidableEq

/-- Python truthiness for `FieldVal` (used by the `or 0` idiom at
`value_at_risk`): `0`, the empty string and `None` are falsy. -/
def FieldVal.truthy : FieldVal → Bool
  | .num q => q != 0
  | .str s => s != ""
  | .pynone => false

/-- Models Python `float(x)` restricted to decimal literals: succeeds on a
number, on a string of the form `[+|-]digits[.digits]` (after stripping
surrounding whitespace), and fails (`none` = raised
`TypeError`/`ValueError`) otherwise. -/
def parseFloat? (s : String) : Option ℚ :=
  let t := s.trim
  let sgn : ℚ := if t.startsWith ("-") then -1 else 1
  let rest := if t.startsWith ("-") || t.startsWith ("+") then t.drop 1 else t
  match rest.splitOn (".") with
  | [ip] =>
      if ip ≠ "" && ip.all Char.isDigit then
        some (sgn * (ip.toNat?.getD 0 : ℚ))
      else none
  | [ip, fp] =>
      if (ip ≠ "" || fp ≠ "") && ip.all Char.isDigit && fp.all Char.isDigit then
        some (sgn * ((ip.toNat?.getD 0 : ℚ) + (fp.toNat?.getD 0 : ℚ) / (10 ^ fp.length)))
      else none
  | _ => none

/-- Models Python `float(x)` on a `FieldVal`: numbers pass through,
strings go through `parseFloat?`, `None` raises (is `none`). -/
def pyFloat? : FieldVal → Option ℚ
  | .num q => some q
  | .str s => parseFloat? s
  | .pynone => none

/-- A proleptic-Gregorian calendar date, as produced by
`datetime.fromisoformat` on a `YYYY-MM-DD` string. -/
structure Date where
  year : Nat
  month : Nat
  day : Nat
deriving DecidableEq

def isLeapYear (y : Nat) : Bool :=
  y % 4 == 0 && (y % 100 != 0 || y % 400 == 0)

def daysInMonth (y m : Nat) : Nat :=
  if m == 2 then (if isLeapYear y then 29 else 28)
  else if m == 4 || m == 6 || m == 9 || m == 11 then 30
  else 31

def daysBeforeYear (y : Nat) : Nat :=
  (y - 1) * 365 + (y - 1) / 4 - (y - 1) / 100 + (y - 1) / 400

def daysBeforeMonth (y m : Nat) : Nat :=
  ((List.range (m - 1)).map (fun i => daysInMonth y (i + 1))).sum

/-- Python's `date.toordinal`: day 1 is 0001-01-01.  The difference of two
ordinals is exactly `(a - b).days` for midnight datetimes. -/
def dateOrd (d : Date) : Nat :=
  daysBeforeYear d.year + daysBeforeMonth d.year d.month + d.day

/-- Models `datetime.fromisoformat` on the date-only form the program
documents (`YYYY-MM-DD`, zero padded, valid calendar date, year ≥ 1). -/
def parseISODate (s : String) : Option Date :=
  match s.splitOn ("-") with
  | [ys, ms, ds] =>
      if ys.length == 4 && ms.length == 2 && ds.length == 2 &&
         ys.all Char.isDigit && ms.all Char.isDigit && ds.all Char.isDigit then
        let y := ys.toNat?.getD 0
        let m := ms.toNat?.getD 0
        let d := ds.toNat?.getD 0
        if 1 ≤ y && 1 ≤ m && m ≤ 12 && 1 ≤ d && d ≤ daysInMonth y m then
          some ⟨y, m, d⟩
        else none
      else none
  | _ => none

/-- Round-half-to-even on `ℚ`, the rounding mode of Python's `round`. -/
def roundHalfEven (q : ℚ) : ℤ :=
  let n := ⌊q⌋
  let r := q - n
  if r < 1/2 then n
  else if 1/2 < r then n + 1
  else if n % 2 = 0 then n else n + 1

/-- Models Python `round(x, 2)` on exact rationals. -/
def round2 (q : ℚ) : ℚ := (roundHalfEven (q * 100) : ℚ) / 100

/-- Models Python `int(x)`: truncation toward zero. -/
def itrunc (q : ℚ) : ℤ := if 0 ≤ q then ⌊q⌋ else ⌈q⌉

namespace Inventory

def CRITICAL_THRESHOLD : Int := 7
def WARNING_THRESHOLD : Int := 14

/-- A raw inventory record: a Python dict whose keys of interest are the
five required fields plus the optional `purchase_price`.  `Option.none`
means the key is absent; `some .pynone` means the key maps to `None`. -/
structure Item where
  item_id : Option FieldVal := none
  item_name : Option FieldVal := none
  quantity : Option FieldVal := none
  unit : Option FieldVal := none
  expiry_date : Option FieldVal := none
  purchase_price : Option FieldVal := none
deriving DecidableEq

/-- The `for field in REQUIRED_FIELDS` loop of `validate_item`: the first
required key absent from the dict, in declaration order. -/
def firstMissingField (item : Item) : Option String :=
  if item.item_id.isNone then some ("item_id")
  else if item.item_name.isNone then some ("item_name")
  else if item.quantity.isNone then some ("quantity")
  else if item.unit.isNone then some ("unit")
  else if item.expiry_date.isNone then some ("expiry_date")
  else none

/-- `validate_item(item, index)` from the source: required keys present,
`quantity` a non-negative number, and `purchase_price` (when present and
not `None`) a non-negative number. -/
def validate_item (item : Item) (index : Nat) : Bool × String :=
  match firstMissingField item with
  | some f =>
      (false, "Item at index " ++ toString index ++ " is missing required field: " ++ f)
  | none =>
      match pyFloat? (item.quantity.getD .pynone) with
      | none => (false, "quantity is not a valid number")
      | some qty =>
          if qty < 0 then (false, "quantity must be >= 0")
          else
            match item.purchase_price with
            | some v =>
                if v = .pynone then (true, "")
                else
                  match pyFloat? v with
                  | none => (false, "purchase_price is not a valid number")
                  | some p =>
                      if p < 0 then (false, "purchase_price must be >= 0")
                      else (true, "")
            | none => (true, "")

/-- The `item.get(k) or 0` idiom at the `value_at_risk` line: an absent
key or any falsy value collapses to the number `0`. -/
def orZero : Option FieldVal → FieldVal
  | some v => if v.truthy then v else .num 0
  | none => .num 0

/-- `float(item.get(k) or 0)`.  For a record that passed `validate_item`
the conversion cannot fail, so the `getD 0` default is unreachable. -/
def pyFloatOr0 (v : Option FieldVal) : ℚ := (pyFloat? (orZero v)).getD 0

/-- `datetime.fromisoformat(str(expiry_date_raw))` for a non-`None` raw
value: only a string can render as an ISO date (`str()` of a number never
has the `YYYY-MM-DD` shape), so other shapes fail to parse. -/
def parsedExpiry : FieldVal → Option Date
  | .str s => parseISODate s
  | _ => none

/-- A skipped-record entry `{item_id, item_name, reason}`. -/
structure SkipEntry where
  item_id : FieldVal
  item_name : FieldVal
  reason : String
deriving DecidableEq

/-- An enriched (classified) inventory record. -/
structure EnrichedItem where
  item_id : FieldVal
  item_name : FieldVal
  quantity : FieldVal
  unit : FieldVal
  days_until_expiry : Int
  expiry_date : FieldVal
  value_at_risk : ℚ
  recommendation : String
deriving DecidableEq

/-- The tier buckets of the inventory analysis. -/
inductive Bucket where
  | expired
  | critical
  | warning
  | ok
  | skipped
deriving DecidableEq

/-- Outcome of one pass of the per-record loop body of
`check_inventory_expiry`. -/
inductive ItemOutcome where
  | expired (e : EnrichedItem)
  | critical (e : EnrichedItem)
  | warning (e : EnrichedItem)
  | ok (e : EnrichedItem)
  | skip (e : SkipEntry)
deriving DecidableEq

def ItemOutcome.bucket : ItemOutcome → Bucket
  | .expired _ => .expired
  | .critical _ => .critical
  | .warning _ => .warning
  | .ok _ => .ok
  | .skip _ => .skipped

/-- `days_until_expiry` of the enriched record, `none` for a skip. -/
def ItemOutcome.days? : ItemOutcome → Option Int
  | .expired e => some e.days_until_expiry
  | .critical e => some e.days_until_expiry
  | .warning e => some e.days_until_expiry
  | .ok e => some e.days_until_expiry
  | .skip _ => none

/-- `value_at_risk` of the enriched record, `none` for a skip. -/
def ItemOutcome.value? : ItemOutcome → Option ℚ
  | .expired e => some e.value_at_risk
  | .critical e => some e.value_at_risk
  | .warning e => some e.value_at_risk
  | .ok e => some e.value_at_risk
  | .skip _ => none

def ItemOutcome.skip? : ItemOutcome → Option SkipEntry
  | .skip e => some e
  | _ => none

def expiredRecText : String :=
  "Item has EXPIRED. Remove from stock immediately and do not sell."

def criticalRecText : String :=
  "Offer 20-30% discount to clear stock immediately. Contact regular customers directly. Consider donation if unsellable."

def warningRecText : String :=
  "Feature prominently in store. Include in meal combos or special offers. Consider freezing or further processing."

def okRecText : String :=
  "Monitor regularly - stock is within safe range."

/-- `(expiry_date - current_date).days` for two midnight datetimes: the
exact ordinal difference, possibly negative. -/
def daysBetween (e c : Date) : Int := (dateOrd e : Int) - (dateOrd c : Int)

/-- The `enriched_item` dict built for a record that passed validation
and date parsing, before the recommendation is attached: `d` is
`days_until_expiry` and `raw` the original `expiry_date` value;
`value_at_risk = round(float(price or 0) * float(quantity or 0), 2)`. -/
def enrichedOf (item : Item) (d : Int) (raw : FieldVal) : EnrichedItem :=
  ⟨item.item_id.getD .pynone, item.item_name.getD .pynone, item.quantity.getD .pynone,
   item.unit.getD .pynone, d, raw,
   round2 (pyFloatOr0 item.purchase_price * pyFloatOr0 item.quantity), ""⟩

/-- The `if/elif/elif/else` threshold chain of `check_inventory_expiry`:
first matching threshold wins, most severe first, attaching the
tier-specific recommendation text. -/
def classifyDays (d : Int) (enr : EnrichedItem) : ItemOutcome :=
  if d ≤ 0 then .expired { enr with recommendation := expiredRecText }
  else if d < CRITICAL_THRESHOLD then .critical { enr with recommendation := criticalRecText }
  else if d < WARNING_THRESHOLD then .warning { enr with recommendation := warningRecText }
  else .ok { enr with recommendation := okRecText }

/-- The body of the `for index, item in enumerate(inventory_list)` loop of
`check_inventory_expiry`: validate, fetch and parse the expiry date,
derive `days_until_expiry` and `value_at_risk`, and classify.  The
`getD .pynone` reads after validation model `item[k]` on keys validation
has guaranteed to be present. -/
def processItem (current_date : Date) (index : Nat) (item : Item) : ItemOutcome :=
  let v := validate_item item index
  if v.1 = false then
    .skip ⟨item.item_id.getD (.str ("unknown_index_" ++ toString index)),
           item.item_name.getD (.str ("unknown")), v.2⟩
  else
    let raw := item.expiry_date.getD .pynone
    if raw = .pynone then
      .skip ⟨item.item_id.getD .pynone, item.item_name.getD .pynone,
             "No expiry date provided - item excluded from expiry tracking"⟩
    else
      match parsedExpiry raw with
      | none =>
          .skip ⟨item.item_id.getD .pynone, item.item_name.getD .pynone,
                 "Invalid expiry_date format. Expected YYYY-MM-DD."⟩
      | some e =>
          classifyDays (daysBetween e current_date)
            (enrichedOf item (daysBetween e current_date) raw)

/-- The outcome of every record of the batch, in input order. -/
def outcomes (current_date : Date) (items : List Item) : List ItemOutcome :=
  items.enum.map (fun p => processItem current_date p.1 p.2)

def expiredOf (outs : List ItemOutcome) : List EnrichedItem :=
  outs.filterMap (fun o => match o with | .expired e => some e | _ => none)

def criticalOf (outs : List ItemOutcome) : List EnrichedItem :=
  outs.filterMap (fun o => match o with | .critical e => some e | _ => none)

def warningOf (outs : List ItemOutcome) : List EnrichedItem :=
  outs.filterMap (fun o => match o with | .warning e => some e | _ => none)

def okOf (outs : List ItemOutcome) : List EnrichedItem :=
  outs.filterMap (fun o => match o with | .ok e => some e | _ => none)

def skippedOf (outs : List ItemOutcome) : List SkipEntry :=
  outs.filterMap ItemOutcome.skip?

/-- The `summary` block of a successful result. -/
structure Summary where
  critical_items : Nat
  warning_items : Nat
  ok_items : Nat
  expired_items : Nat
  skipped_items : Nat
  total_value_at_risk : ℚ
  total_expired_value : ℚ
deriving DecidableEq

/-- The result dictionary of `check_inventory_expiry`, split by its
`status` field. -/
inductive InvResult where
  | error (message : String) (timestamp : Date)
  | success (summary : Summary) (critical_items warning_items expired_items ok_items : List EnrichedItem)
      (skipped_items : List SkipEntry) (timestamp : Date)
deriving DecidableEq

def InvResult.status : InvResult → String
  | .error _ _ => "error"
  | .success _ _ _ _ _ _ _ => "success"

def InvResult.skippedList : InvResult → List SkipEntry
  | .error _ _ => []
  | .success _ _ _ _ _ sk _ => sk

/-- The top-level input: a bare list of records, a dict (whose
`inventory` key may be absent and whose `current_date` key may hold any
value), or anything that is neither a list nor a dict. -/
inductive InventoryInput where
  | list (items : List Item)
  | dict (inventory : Option (List Item)) (current_date : Option FieldVal)
  | other
deriving DecidableEq

/-- `datetime.fromisoformat(inventory_data[current_date])` — this call
is not `str()`-wrapped in the source, so a non-string value raises
`TypeError` (modelled as a parse failure, which the source catches). -/
def parseCurrentDate : FieldVal → Option Date
  | .str s => parseISODate s
  | _ => none

/-- The record list the source resolves out of the top-level input
(`inventory_data` itself for a list, `inventory_data.get('inventory', [])`
for a dict, `[]` otherwise). -/
def resolvedItems : InventoryInput → List Item
  | .list items => items
  | .dict inv _ => inv.getD []
  | .other => []

/-- `check_inventory_expiry(inventory_data)` from the source.  `now`
models `datetime.now()`. -/
def check_inventory_expiry (now : Date) (input : InventoryInput) : InvResult :=
  match input with
  | .other =>
      .error "inventory_data must be a list or a dict with an inventory key." now
  | .list items => checkResolved now items
  | .dict inv cd =>
      match cd with
      | some v =>
          match parseCurrentDate v with
          | none =>
              .error "Invalid current_date format. Expected ISO format YYYY-MM-DD." now
          | some c => checkResolved c (inv.getD [])
      | none => checkResolved now (inv.getD [])
where
  /-- The part of `check_inventory_expiry` after the reference date and
  record list have been resolved: the empty check, the per-record loop
  and the aggregation. -/
  checkResolved (current_date : Date) (items : List Item) : InvResult :=
    if items.isEmpty then
      .error "Inventory list is empty. Nothing to analyse." current_date
    else
      let outs := outcomes current_date items
      let crit := criticalOf outs
      let warn := warningOf outs
      let exp := expiredOf outs
      let okl := okOf outs
      let skp := skippedOf outs
      .success
        ⟨crit.length, warn.length, okl.length, exp.length, skp.length,
         round2 (((crit ++ warn).map (fun e => e.value_at_risk)).sum),
         round2 ((exp.map (fun e => e.value_at_risk)).sum)⟩
        crit warn exp okl skp current_date

/-- Spec-side description (from the claim wording) of the fatal
batch-level inputs of the inventory analysis: the input is neither a
list nor a dict, the resolved record sequence is empty, or an explicitly
supplied `current_date` fails ISO-date parsing. -/
def fatalInputSpec : InventoryInput → Bool
  | .other => true
  | .list items => items.isEmpty
  | .dict inv cd =>
      (match cd with
       | some v => (parseCurrentDate v).isNone
       | none => false) || (inv.getD []).isEmpty

end Inventory

namespace Cashflow

def CRITICAL_THRESHOLD : Int := 30
def WARNING_THRESHOLD : Int := 60

def MIN_DAYS_FOR_FULL_CONFIDENCE : Int := 90
def MID_DAYS_FOR_MEDIUM_CONFIDENCE : Int := 60
def MIN_DAYS_FOR_LOW_CONFIDENCE : Int := 30

def MIN_TRANSACTIONS_PER_DAY : ℚ := 5

/-- A raw transaction dict.  `Option.none` models an absent key.  In line
with the documented interface (`date`: ISO date string, `type`: string,
`amount`: number), present values are modelled at those types; pandas
behaviour on other value shapes is outside the embedding. -/
structure Txn where
  date : Option String := none
  type : Option String := none
  amount : Option ℚ := none
deriving DecidableEq

/-- `required_fields - set(t.keys())` is non-empty for this transaction. -/
def missingFields (t : Txn) : Bool :=
  t.date.isNone || t.type.isNone || t.amount.isNone

/-- The index of the first transaction with a missing required field —
the one whose `ValueError` the validation loop raises. -/
def firstMissingIdx (ts : List Txn) : Option Nat :=
  ts.findIdx? missingFields

/-- `(df[date].max() - df[date].min()).days + 1` over the parsed dates. -/
def daysOfData : List Date → Int
  | [] => 0
  | d :: ds =>
      let ords := (d :: ds).map (fun x => (dateOrd x : Int))
      ords.foldl max (dateOrd d : Int) - ords.foldl min (dateOrd d : Int) + 1

/-- The history-length score of `calculate_confidence`. -/
def days_score (days_of_data : Int) : ℚ :=
  if days_of_data ≥ MIN_DAYS_FOR_FULL_CONFIDENCE then 1
  else if days_of_data ≥ MID_DAYS_FOR_MEDIUM_CONFIDENCE then 85/100
  else if days_of_data ≥ MIN_DAYS_FOR_LOW_CONFIDENCE then 7/10
  else 1/2

/-- The recording-frequency score of `calculate_confidence`:
`len(df) / days_of_data` against `MIN_TRANSACTIONS_PER_DAY`. -/
def density_score (n : Nat) (days_of_data : Int) : ℚ :=
  if (n : ℚ) / (days_of_data : ℚ) ≥ MIN_TRANSACTIONS_PER_DAY then 1 else 7/10

/-- `pd.to_datetime(df[date])`: elementwise date parsing of the whole
column; any unparseable entry raises (yields `none`). -/
def parseDates : List String → Option (List Date)
  | [] => some []
  | s :: rest =>
      match parseISODate s, parseDates rest with
      | some d, some ds => some (d :: ds)
      | _, _ => none

/-- `calculate_confidence(df)` from the source, over the `date` column of
the history. -/
def calculate_confidence (dateStrs : List String) : Option ℚ :=
  match parseDates dateStrs with
  | none => none
  | some dates =>
      some (round2 (days_score (daysOfData dates) * density_score dateStrs.length (daysOfData dates)))

/-- A `{priority, action}` recommendation entry. -/
structure Recommendation where
  priority : Nat
  action : String
deriving DecidableEq

def criticalRecs : List Recommendation :=
  [⟨1, "Reduce non-essential expenses immediately"⟩,
   ⟨2, "Follow up on all pending payments"⟩,
   ⟨3, "Consider short-term financing options"⟩]

def warningRecs : List Recommendation :=
  [⟨1, "Review and cut discretionary spending"⟩,
   ⟨2, "Speed up collection of receivables"⟩,
   ⟨3, "Identify and plan new revenue sources"⟩]

def okRecs : List Recommendation :=
  [⟨1, "Monitor cashflow on a weekly basis"⟩,
   ⟨2, "Build an emergency cash reserve"⟩]

def stableRecs : List Recommendation :=
  [⟨1, "Maintain current financial discipline"⟩,
   ⟨2, "Consider reinvesting surplus into inventory"⟩]

def fallbackRecs : List Recommendation :=
  [⟨1, "Review your transaction data for accuracy"⟩]

/-- `generate_recommendations(risk_level)` from the source: the static
per-tier table with the generic fallback for any other key. -/
def generate_recommendations (risk_level : String) : List Recommendation :=
  if risk_level = "critical" then criticalRecs
  else if risk_level = "warning" then warningRecs
  else if risk_level = "ok" then okRecs
  else if risk_level = "stable" then stableRecs
  else fallbackRecs

/-- The income partition `df[df[type] == income]` of the history. -/
def incomeOf (ts : List Txn) : List Txn :=
  ts.filter (fun t => t.type == some ("income"))

/-- The expense partition `df[df[type] == expense]` of the history. -/
def expenseOf (ts : List Txn) : List Txn :=
  ts.filter (fun t => t.type == some ("expense"))

/-- Mean of the `amount` column of a partition, `0.0` when it is empty
(the fields are all present at the point this runs). -/
def meanAmount (part : List Txn) : ℚ :=
  let amts := part.filterMap (fun t => t.amount)
  if amts.isEmpty then 0 else amts.sum / (amts.length : ℚ)

/-- `avg_income`: mean amount of the income partition. -/
def avgIncome (ts : List Txn) : ℚ := meanAmount (incomeOf ts)

/-- `avg_expense`: mean amount of the expense partition. -/
def avgExpense (ts : List Txn) : ℚ := meanAmount (expenseOf ts)

/-- `burn_rate = avg_expense - avg_income`. -/
def burnRate (ts : List Txn) : ℚ := avgExpense ts - avgIncome ts

/-- The `if/elif/else` risk classification of `predict_cashflow_risk`
on `days_until_broke`, evaluated only when `burn_rate > 0`. -/
def riskOf (dub : Int) : String :=
  if dub ≤ CRITICAL_THRESHOLD then "critical"
  else if dub ≤ WARNING_THRESHOLD then "warning"
  else "ok"

/-- A transaction type outside the valid domain `{income, expense}` —
the rows `df[~df["type"].isin(valid_types)]` selects. -/
def badType (s : String) : Bool := s != "income" && s != "expense"

/-- The result dict of `predict_cashflow_risk`.  The wall-clock
`created_at` timestamp is omitted from the embedding. -/
structure CashResult where
  risk_level : String
  days_until_broke : Option Int
  avg_daily_income : ℚ
  avg_daily_expense : ℚ
  burn_rate : ℚ
  confidence_score : ℚ
  recommendations : List Recommendation
deriving DecidableEq

/-- `predict_cashflow_risk(transactions, current_balance)` from the
source.  `current_balance` is `some q` for a numeric balance and `none`
for any non-numeric value (the `isinstance` check); `Except.error` models
a raised `ValueError`/`TypeError`. -/
def predict_cashflow_risk (transactions : List Txn) (current_balance : Option ℚ) :
    Except String CashResult :=
  if transactions.isEmpty then
    .error "Transactions list cannot be empty."
  else
    match current_balance with
    | none => .error "current_balance must be a number."
    | some bal =>
        match firstMissingIdx transactions with
        | some i => .error ("Transaction at index " ++ toString i ++ " is missing fields.")
        | none =>
            if ((transactions.filterMap (fun t => t.type)).filter badType).isEmpty = false then
              .error "Invalid transaction type(s) found."
            else
              match calculate_confidence (transactions.filterMap (fun t => t.date)) with
              | none => .error "Unparseable transaction date."
              | some conf =>
                  let ai := avgIncome transactions
                  let ae := avgExpense transactions
                  let br := burnRate transactions
                  if br ≤ 0 then
                    .ok ⟨"stable", none, round2 ai, round2 ae, round2 br, conf,
                         generate_recommendations ("stable")⟩
                  else
                    let dub := itrunc (bal / br)
                    .ok ⟨riskOf dub, some dub, round2 ai, round2 ae, round2 br, conf,
                         generate_recommendations (riskOf dub)⟩

/-- Whether a call raised (`Except.error` models a raised fault). -/
def raised : Except String CashResult → Bool
  | .error _ => true
  | .ok _ => false

/-- Spec-side description (the amended fatal-trigger list) of the inputs
on which `predict_cashflow_risk` raises, for histories whose present
dates all parse: the list is empty, the balance is not numeric, some
transaction is missing a required field, or some transaction type is
outside `{income, expense}`. -/
def fatalTriggersSpec (ts : List Txn) (bal : Option ℚ) : Bool :=
  ts.isEmpty || bal.isNone || ts.any missingFields ||
    (ts.filterMap (fun t => t.type)).any badType

/-- Every present `date` field parses as an ISO date (the interface
contract of the `transactions` argument). -/
def datesWellFormed (ts : List Txn) : Bool :=
  ts.all (fun t =>
    match t.date with
    | some s => (parseISODate s).isSome
    | none => true)

end Cashflow

/-! ## Theorems -/

theorem checkResolved_status (c : Date) (items : List Inventory.Item) :
    (Inventory.check_inventory_expiry.checkResolved c items).status =
      if items.isEmpty then "error" else "success" := by
  unfold Inventory.check_inventory_expiry.checkResolved
  split <;> rfl

/-- C9: `generate_recommendations` is total on strings: each recognized
tier in {critical, warning, ok, stable} yields that tier's fixed ordered
list of priority/action pairs with priorities numbered from 1, every
other input string yields the single-element generic fallback, and the
result is never empty. -/
theorem spec_C9 (risk_level : String) :
    Cashflow.generate_recommendations risk_level ≠ [] ∧
    (Cashflow.generate_recommendations risk_level).map (fun r => r.priority) =
      List.range' 1 (Cashflow.generate_recommendations risk_level).length ∧
    (risk_level = "critical" →
      Cashflow.generate_recommendations risk_level = Cashflow.criticalRecs) ∧
    (risk_level = "warning" →
      Cashflow.generate_recommendations risk_level = Cashflow.warningRecs) ∧
    (risk_level = "ok" →
      Cashflow.generate_recommendations risk_level = Cashflow.okRecs) ∧
    (risk_level = "stable" →
      Cashflow.generate_recommendations risk_level = Cashflow.stableRecs) ∧
    (risk_level ≠ "critical" → risk_level ≠ "warning" → risk_level ≠ "ok" →
      risk_level ≠ "stable" →
      Cashflow.generate_recommendations risk_level = Cashflow.fallbackRecs) := by
  by_cases h1 : risk_level = "critical"
  · subst h1
    exact ⟨by decide, by decide, fun _ => rfl,
           fun h => absurd h (by decide), fun h => absurd h (by decide),
           fun h => absurd h (by decide), fun h _ _ _ => absurd rfl h⟩
  by_cases h2 : risk_level = "warning"
  · subst h2
    exact ⟨by decide, by decide, fun h => absurd h (by decide), fun _ => by decide,
           fun h => absurd h (by decide), fun h => absurd h (by decide),
           fun _ h _ _ => absurd rfl h⟩
  by_cases h3 : risk_level = "ok"
  · subst h3
    exact ⟨by decide, by decide, fun h => absurd h (by decide),
           fun h => absurd h (by decide), fun _ => by decide,
           fun h => absurd h (by decide), fun _ _ h _ => absurd rfl h⟩
  by_cases h4 : risk_level = "stable"
  · subst h4
    exact ⟨by decide, by decide, fun h => absurd h (by decide),
           fun h => absurd h (by decide), fun h => absurd h (by decide),
           fun _ => by decide, fun _ _ _ h => absurd rfl h⟩
  · have hg : Cashflow.generate_recommendations risk_level = Cashflow.fallbackRecs := by
      simp [Cashflow.generate_recommendations, h1, h2, h3, h4]
    exact ⟨by rw [hg]; decide, by rw [hg]; decide,
           fun h => absurd h h1, fun h => absurd h h2, fun h => absurd h h3,
           fun h => absurd h h4, fun _ _ _ _ => hg⟩

/-- Witness for C9 at the recognized tier `critical` and at an
unrecognized tier string. -/
theorem spec_C9_witness :
    Cashflow.generate_recommendations "critical" = Cashflow.criticalRecs ∧
    Cashflow.generate_recommendations "bogus" = Cashflow.fallbackRecs ∧
    Cashflow.generate_recommendations "bogus" ≠ [] :=
  ⟨(spec_C9 "critical").2.2.1 rfl,
   (spec_C9 "bogus").2.2.2.2.2.2 (by decide) (by decide) (by decide) (by decide),
   (spec_C9 "bogus").1⟩

/-- C5: `check_inventory_expiry` returns a `status = error` result (it
never raises) exactly when the top-level input is fatal — the input is
neither a list nor a dict, the resolved record sequence is empty, or an
explicitly supplied `current_date` fails ISO-date parsing — and returns
`status = success` in every other case. -/
theorem spec_C5 (now : Date) (input : Inventory.InventoryInput) :
    ((Inventory.check_inventory_expiry now input).status = "error" ↔
      Inventory.fatalInputSpec input = true) ∧
    (Inventory.fatalInputSpec input = false →
      (Inventory.check_inventory_expiry now input).status = "success") := by
  cases input with
  | other =>
      simp [Inventory.check_inventory_expiry, Inventory.fatalInputSpec,
            Inventory.InvResult.status]
  | list items =>
      have h : Inventory.check_inventory_expiry now (.list items) =
          Inventory.check_inventory_expiry.checkResolved now items := rfl
      rw [h, checkResolved_status]
      by_cases he : items.isEmpty <;> simp [Inventory.fatalInputSpec, he]
  | dict inv cd =>
      cases cd with
      | none =>
          have h : Inventory.check_inventory_expiry now (.dict inv none) =
              Inventory.check_inventory_expiry.checkResolved now (inv.getD []) := rfl
          rw [h, checkResolved_status]
          by_cases he : (inv.getD []).isEmpty <;> simp [Inventory.fatalInputSpec, he]
      | some v =>
          have h : Inventory.check_inventory_expiry now (.dict inv (some v)) =
              (match Inventory.parseCurrentDate v with
               | none =>
                   Inventory.InvResult.error
                     "Invalid current_date format. Expected ISO format YYYY-MM-DD." now
               | some c =>
                   Inventory.check_inventory_expiry.checkResolved c (inv.getD [])) := rfl
          rw [h]
          cases hp : Inventory.parseCurrentDate v with
          | none =>
              simp [Inventory.fatalInputSpec, hp, Inventory.InvResult.status]
          | some c =>
              rw [checkResolved_status]
              by_cases he : (inv.getD []).isEmpty <;>
                simp [Inventory.fatalInputSpec, hp, he]

/-- Witness for C5: a non-list, non-dict input is fatal and yields the
error status; a one-record list yields the success status. -/
theorem spec_C5_witness :
    (Inventory.check_inventory_expiry ⟨2025, 1, 1⟩ .other).status = "error" ∧
    (Inventory.check_inventory_expiry ⟨2025, 1, 1⟩
        (.list [{ item_id := some (.num 1) }])).status = "success" :=
  ⟨(spec_C5 ⟨2025, 1, 1⟩ .other).1.mpr rfl,
   (spec_C5 ⟨2025, 1, 1⟩ (.list [{ item_id := some (.num 1) }])).2 rfl⟩
theorem classifyDays_days (d : Int) (enr : Inventory.EnrichedItem) :
    (Inventory.classifyDays d enr).days? = some enr.days_until_expiry := by
  unfold Inventory.classifyDays
  split_ifs <;> rfl

theorem classifyDays_bucket (d : Int) (enr : Inventory.EnrichedItem) :
    (Inventory.classifyDays d enr).bucket =
      if d ≤ 0 then .expired
      else if d < 7 then .critical
      else if d < 14 then .warning
      else .ok := by
  unfold Inventory.classifyDays Inventory.CRITICAL_THRESHOLD Inventory.WARNING_THRESHOLD
  split_ifs <;> rfl

theorem processItem_classified (current_date : Date) (index : Nat)
    (item : Inventory.Item) (s : String) (e : Date)
    (hval : (Inventory.validate_item item index).1 = true)
    (hraw : item.expiry_date = some (.str s))
    (hparse : parseISODate s = some e) :
    Inventory.processItem current_date index item =
      Inventory.classifyDays (Inventory.daysBetween e current_date)
        (Inventory.enrichedOf item (Inventory.daysBetween e current_date) (.str s)) := by
  unfold Inventory.processItem
  simp only [hval, hraw, Inventory.parsedExpiry, hparse, Option.getD_some]
  simp

/-- C1: for every inventory record that passes validation and has a
parseable `expiry_date`, and any reference date, `check_inventory_expiry`
(through its per-record loop body `processItem`) sets `days_until_expiry`
to the exact integer calendar-day difference expiry − reference (possibly
negative) and assigns the tier by the first matching threshold:
`≤ 0` expired, `0 < d < 7` critical, `7 ≤ d < 14` warning, `≥ 14` ok. -/
theorem spec_C1 (current_date : Date) (index : Nat) (item : Inventory.Item)
    (s : String) (e : Date)
    (hval : (Inventory.validate_item item index).1 = true)
    (hraw : item.expiry_date = some (.str s))
    (hparse : parseISODate s = some e) :
    (Inventory.processItem current_date index item).days? =
      some (Inventory.daysBetween e current_date) ∧
    (Inventory.daysBetween e current_date ≤ 0 →
      (Inventory.processItem current_date index item).bucket = .expired) ∧
    (0 < Inventory.daysBetween e current_date →
      Inventory.daysBetween e current_date < 7 →
      (Inventory.processItem current_date index item).bucket = .critical) ∧
    (7 ≤ Inventory.daysBetween e current_date →
      Inventory.daysBetween e current_date < 14 →
      (Inventory.processItem current_date index item).bucket = .warning) ∧
    (14 ≤ Inventory.daysBetween e current_date →
      (Inventory.processItem current_date index item).bucket = .ok) := by
  rw [processItem_classified current_date index item s e hval hraw hparse]
  rw [classifyDays_days, classifyDays_bucket]
  refine ⟨rfl, ?_, ?_, ?_, ?_⟩ <;> intro h1 <;> try intro h2
  · rw [if_pos h1]
  · rw [if_neg (by omega), if_pos h2]
  · rw [if_neg (by omega), if_neg (by omega), if_pos h2]
  · rw [if_neg (by omega), if_neg (by omega), if_neg (by omega)]

/-- Witness for C1: the Milk record of the end-to-end example, evaluated
at reference date 2025-01-01, lands in the expired bucket with day
difference 0. -/
theorem spec_C1_witness :
    (Inventory.processItem ⟨2025, 1, 1⟩ 0
      { item_id := some (.str "A1"), item_name := some (.str "Milk"),
        quantity := some (.num 10), unit := some (.str "L"),
        expiry_date := some (.str "2025-01-01"), purchase_price := some (.num 2) }).days? =
      some 0 ∧
    (Inventory.processItem ⟨2025, 1, 1⟩ 0
      { item_id := some (.str "A1"), item_name := some (.str "Milk"),
        quantity := some (.num 10), unit := some (.str "L"),
        expiry_date := some (.str "2025-01-01"), purchase_price := some (.num 2) }).bucket =
      .expired := by
  have h := spec_C1 ⟨2025, 1, 1⟩ 0
    { item_id := some (.str "A1"), item_name := some (.str "Milk"),
      quantity := some (.num 10), unit := some (.str "L"),
      expiry_date := some (.str "2025-01-01"), purchase_price := some (.num 2) }
    "2025-01-01" ⟨2025, 1, 1⟩ (by with_unfolding_all rfl) rfl (by with_unfolding_all rfl)
  exact ⟨h.1.trans (by decide), h.2.1 (by decide)⟩

/-- Structural characterization of a non-raising call of
`predict_cashflow_risk` with a numeric balance: the confidence score was
computed, and the result is the stable record (when `burn_rate ≤ 0`) or
the classified record built from `days_until_broke = int(balance / burn_rate)`. -/
theorem predict_ok_cases (ts : List Cashflow.Txn) (bal : ℚ) (r : Cashflow.CashResult)
    (h : Cashflow.predict_cashflow_risk ts (some bal) = Except.ok r) :
    ∃ conf, Cashflow.calculate_confidence (ts.filterMap (fun t => t.date)) = some conf ∧
      ((Cashflow.burnRate ts ≤ 0 ∧
          r = ⟨"stable", none, round2 (Cashflow.avgIncome ts), round2 (Cashflow.avgExpense ts),
               round2 (Cashflow.burnRate ts), conf, Cashflow.generate_recommendations "stable"⟩) ∨
       (0 < Cashflow.burnRate ts ∧
          r = ⟨Cashflow.riskOf (itrunc (bal / Cashflow.burnRate ts)),
               some (itrunc (bal / Cashflow.burnRate ts)),
               round2 (Cashflow.avgIncome ts), round2 (Cashflow.avgExpense ts),
               round2 (Cashflow.burnRate ts), conf,
               Cashflow.generate_recommendations
                 (Cashflow.riskOf (itrunc (bal / Cashflow.burnRate ts)))⟩)) := by
  unfold Cashflow.predict_cashflow_risk at h
  dsimp only at h
  split at h
  · simp at h
  · split at h
    · simp at h
    · split at h
      · simp at h
      · split at h
        · simp at h
        · rename_i conf hconf
          refine ⟨conf, hconf, ?_⟩
          split at h
          · rename_i hle
            left
            exact ⟨hle, ((Except.ok.injEq _ _).mp h).symm⟩
          · rename_i hgt
            right
            exact ⟨lt_of_not_le hgt, ((Except.ok.injEq _ _).mp h).symm⟩

/-- C2 counterexample: with a single expense of 2 and balance −1
(`burn_rate = 2 > 0`, balance numeric), the code computes
`days_until_broke = int(-1/2) = 0` (truncation toward zero), while the
claimed `floor(-1/2)` is `-1`. -/
theorem spec_C2_counterexample :
    Cashflow.predict_cashflow_risk
        [{ date := some "2025-01-01", type := some "expense", amount := some 2 }]
        (some (-1)) =
      Except.ok ⟨"critical", some 0, 0, 2, 2, 35/100, Cashflow.criticalRecs⟩ ∧
    Cashflow.burnRate
        [{ date := some "2025-01-01", type := some "expense", amount := some 2 }] = 2 ∧
    (0 : ℚ) < 2 ∧
    ⌊(-1 : ℚ) / 2⌋ = -1 ∧
    some (0 : ℤ) ≠ some (-1 : ℤ) :=
  ⟨by with_unfolding_all rfl, by with_unfolding_all rfl, by norm_num,
   by with_unfolding_all decide, by decide⟩

/-- C2 (amended): for every non-raising call with numeric balance and
`burn_rate > 0`, `days_until_broke = int(current_balance / burn_rate)`
(truncation toward zero, equal to floor for non-negative balances) and
the classification is `≤ 30` critical, `≤ 60` warning, else ok. -/
theorem spec_C2_amended (ts : List Cashflow.Txn) (bal : ℚ) (r : Cashflow.CashResult)
    (h : Cashflow.predict_cashflow_risk ts (some bal) = Except.ok r)
    (hbr : 0 < Cashflow.burnRate ts) :
    r.days_until_broke = some (itrunc (bal / Cashflow.burnRate ts)) ∧
    (∀ dub : ℤ, r.days_until_broke = some dub →
      (dub ≤ 30 → r.risk_level = "critical") ∧
      (30 < dub → dub ≤ 60 → r.risk_level = "warning") ∧
      (60 < dub → r.risk_level = "ok")) := by
  obtain ⟨conf, hconf, hcase⟩ := predict_ok_cases ts bal r h
  rcases hcase with ⟨hle, _⟩ | ⟨hpos, hr⟩
  · exact absurd hle (not_le.mpr hbr)
  · subst hr
    refine ⟨rfl, ?_⟩
    intro dub hdub
    obtain rfl : itrunc (bal / Cashflow.burnRate ts) = dub := Option.some.inj hdub
    unfold Cashflow.riskOf Cashflow.CRITICAL_THRESHOLD Cashflow.WARNING_THRESHOLD
    set d := itrunc (bal / Cashflow.burnRate ts) with hd
    refine ⟨fun h1 => ?_, fun h1 h2 => ?_, fun h1 => ?_⟩
    · simp [h1]
    · rw [if_neg (by omega), if_pos h2]
    · rw [if_neg (by omega), if_neg (by omega)]

/-- Witness for the amended C2: the end-to-end example (average expense
100, average income 40, balance 1800) gives `days_until_broke = 30` and
the critical tier. -/
theorem spec_C2_amended_witness :
    (⟨"critical", some 30, 40, 100, 60, 35/100, Cashflow.criticalRecs⟩ :
        Cashflow.CashResult).days_until_broke =
      some (itrunc ((1800 : ℚ) /
        Cashflow.burnRate
          [{ date := some "2025-01-01", type := some "expense", amount := some 100 },
           { date := some "2025-01-01", type := some "income", amount := some 40 }])) ∧
    ((30 : ℤ) ≤ 30 →
      (⟨"critical", some 30, 40, 100, 60, 35/100, Cashflow.criticalRecs⟩ :
          Cashflow.CashResult).risk_level = "critical") := by
  have h := spec_C2_amended
    [{ date := some "2025-01-01", type := some "expense", amount := some 100 },
     { date := some "2025-01-01", type := some "income", amount := some 40 }]
    1800 ⟨"critical", some 30, 40, 100, 60, 35/100, Cashflow.criticalRecs⟩
    (by with_unfolding_all rfl) (by with_unfolding_all decide)
  exact ⟨h.1, fun hle => ((h.2 30 rfl).1 hle)⟩

/-- C3: every non-raising call computes `avg_income` / `avg_expense` as
the mean transaction amount within the income / expense partition (0 for
an empty partition) and `burn_rate` as their difference, and whenever
`burn_rate ≤ 0` the result is the stable verdict with a null
`days_until_broke`, regardless of the balance. -/
theorem spec_C3 (ts : List Cashflow.Txn) (bal : ℚ) (r : Cashflow.CashResult)
    (h : Cashflow.predict_cashflow_risk ts (some bal) = Except.ok r) :
    r.avg_daily_income = round2 (Cashflow.avgIncome ts) ∧
    r.avg_daily_expense = round2 (Cashflow.avgExpense ts) ∧
    r.burn_rate = round2 (Cashflow.burnRate ts) ∧
    (Cashflow.incomeOf ts = [] → Cashflow.avgIncome ts = 0) ∧
    (Cashflow.expenseOf ts = [] → Cashflow.avgExpense ts = 0) ∧
    (Cashflow.burnRate ts ≤ 0 →
      r.risk_level = "stable" ∧ r.days_until_broke = none) := by
  have hie : Cashflow.incomeOf ts = [] → Cashflow.avgIncome ts = 0 := by
    intro he
    unfold Cashflow.avgIncome Cashflow.meanAmount
    rw [he]
    rfl
  have hee : Cashflow.expenseOf ts = [] → Cashflow.avgExpense ts = 0 := by
    intro he
    unfold Cashflow.avgExpense Cashflow.meanAmount
    rw [he]
    rfl
  obtain ⟨conf, hconf, hcase⟩ := predict_ok_cases ts bal r h
  rcases hcase with ⟨hle, hr⟩ | ⟨hpos, hr⟩ <;> subst hr
  · exact ⟨rfl, rfl, rfl, hie, hee, fun _ => ⟨rfl, rfl⟩⟩
  · exact ⟨rfl, rfl, rfl, hie, hee, fun hle => absurd hle (not_le.mpr hpos)⟩

/-- Witness for C3: a single income of 10 with balance 5 yields the
stable verdict with null `days_until_broke`. -/
theorem spec_C3_witness :
    (⟨"stable", none, 10, 0, -10, 35/100, Cashflow.stableRecs⟩ :
        Cashflow.CashResult).avg_daily_income =
      round2 (Cashflow.avgIncome
        [{ date := some "2025-01-01", type := some "income", amount := some 10 }]) ∧
    (⟨"stable", none, 10, 0, -10, 35/100, Cashflow.stableRecs⟩ :
        Cashflow.CashResult).risk_level = "stable" ∧
    (⟨"stable", none, 10, 0, -10, 35/100, Cashflow.stableRecs⟩ :
        Cashflow.CashResult).days_until_broke = none := by
  have h := spec_C3
    [{ date := some "2025-01-01", type := some "income", amount := some 10 }]
    5 ⟨"stable", none, 10, 0, -10, 35/100, Cashflow.stableRecs⟩
    (by with_unfolding_all rfl)
  exact ⟨h.1, h.2.2.2.2.2 (by with_unfolding_all decide)⟩

/-- If every entry of the column parses, the whole column parses. -/
theorem parseDates_isSome_of_all (l : List String)
    (h : ∀ s ∈ l, (parseISODate s).isSome) :
    ∃ ds, Cashflow.parseDates l = some ds := by
  induction l with
  | nil => exact ⟨[], rfl⟩
  | cons a l ih =>
      obtain ⟨d, hd⟩ := Option.isSome_iff_exists.mp (h a (List.mem_cons_self a l))
      obtain ⟨ds, hds⟩ := ih (fun x hx => h x (List.mem_cons_of_mem a hx))
      exact ⟨d :: ds, by unfold Cashflow.parseDates; rw [hd, hds]⟩

/-- C4 (amended): assuming well-formed date strings,
`predict_cashflow_risk` raises if and only if one of the fatal triggers
holds: the transaction list is empty, `current_balance` is not numeric,
some transaction is missing a required field of {date, type, amount}, or
some transaction type is outside {income, expense}. -/
theorem spec_C4_amended (ts : List Cashflow.Txn) (bal : Option ℚ)
    (hdates : Cashflow.datesWellFormed ts = true) :
    Cashflow.raised (Cashflow.predict_cashflow_risk ts bal) =
      Cashflow.fatalTriggersSpec ts bal := by
  unfold Cashflow.predict_cashflow_risk Cashflow.fatalTriggersSpec
  by_cases h1 : ts.isEmpty
  · simp [h1, Cashflow.raised]
  · have h1f : ts.isEmpty = false := Bool.eq_false_iff.mpr h1
    rw [if_neg h1]
    cases bal with
    | none => simp [h1f, Cashflow.raised]
    | some b =>
        dsimp only
        cases hm : Cashflow.firstMissingIdx ts with
        | some i =>
            have hany : ts.any Cashflow.missingFields = true := by
              by_contra hno
              have hall := List.any_eq_false.mp (Bool.not_eq_true _ ▸ hno)
              have hnone : Cashflow.firstMissingIdx ts = none :=
                List.findIdx?_eq_none_iff.mpr (fun x hx => by
                  have := hall x hx
                  simpa using this)
              rw [hnone] at hm
              exact Option.noConfusion hm
            simp [h1f, hany, Cashflow.raised]
        | none =>
            have hnomiss : ts.any Cashflow.missingFields = false := by
              have hall := List.findIdx?_eq_none_iff.mp hm
              exact List.any_eq_false.mpr (fun x hx => by simpa using hall x hx)
            by_cases hb : ((ts.filterMap (fun t => t.type)).filter Cashflow.badType).isEmpty
            · have hnobad : (ts.filterMap (fun t => t.type)).any Cashflow.badType = false :=
                List.any_eq_false.mpr (fun x hx hbad => by
                  have hmem : x ∈ (ts.filterMap (fun t => t.type)).filter Cashflow.badType :=
                    List.mem_filter.mpr ⟨hx, hbad⟩
                  rw [List.isEmpty_iff.mp hb] at hmem
                  exact List.not_mem_nil x hmem)
              obtain ⟨ds, hds⟩ := parseDates_isSome_of_all
                  (ts.filterMap (fun t => t.date)) (by
                intro s hs
                obtain ⟨t, ht, hts⟩ := List.mem_filterMap.mp hs
                have := List.all_eq_true.mp hdates t ht
                rw [hts] at this
                simpa using this)
              rw [hb, if_neg (show ¬(true = false) by decide)]
              have hc : Cashflow.calculate_confidence (ts.filterMap (fun t => t.date)) =
                  some (round2 (Cashflow.days_score (Cashflow.daysOfData ds) *
                    Cashflow.density_score (ts.filterMap (fun t => t.date)).length
                      (Cashflow.daysOfData ds))) := by
                unfold Cashflow.calculate_confidence
                rw [hds]
              rw [hc]
              dsimp only
              split
              · simp [h1f, hnomiss, hnobad, Cashflow.raised]
              · simp [h1f, hnomiss, hnobad, Cashflow.raised]
            · have hbad : (ts.filterMap (fun t => t.type)).any Cashflow.badType = true := by
                rcases List.exists_mem_of_ne_nil _
                    (fun hnil => hb (List.isEmpty_iff.mpr hnil)) with ⟨x, hx⟩
                have hmf := List.mem_filter.mp hx
                exact List.any_eq_true.mpr ⟨x, hmf.1, hmf.2⟩
              have hbf : ((ts.filterMap (fun t => t.type)).filter Cashflow.badType).isEmpty = false :=
                Bool.eq_false_iff.mpr hb
              rw [hbf, if_pos rfl]
              simp [h1f, hnomiss, hbad, Cashflow.raised]

/-- C4 counterexample: a transaction missing its `date` key triggers a
raise in the field-validation loop even though none of the claim's
enumerated triggers (empty list, non-numeric balance, bad type) holds. -/
theorem spec_C4_counterexample :
    Cashflow.raised (Cashflow.predict_cashflow_risk
        [{ date := none, type := some "income", amount := some 5 }] (some 100)) = true ∧
    ([{ date := none, type := some "income", amount := some 5 }] :
        List Cashflow.Txn).isEmpty = false ∧
    (some (100 : ℚ)).isNone = false ∧
    ({ date := none, type := some "income", amount := some 5 } : Cashflow.Txn).type =
      some "income" :=
  ⟨by with_unfolding_all rfl, rfl, rfl, rfl⟩

/-- Witness for the amended C4: a well-formed single-transaction history
with a non-numeric balance raises, matching the trigger list. -/
theorem spec_C4_amended_witness :
    Cashflow.raised (Cashflow.predict_cashflow_risk
        [{ date := some "2025-01-01", type := some "income", amount := some 5 }] none) =
      Cashflow.fatalTriggersSpec
        [{ date := some "2025-01-01", type := some "income", amount := some 5 }] none ∧
    Cashflow.fatalTriggersSpec
        [{ date := some "2025-01-01", type := some "income", amount := some 5 }] none = true :=
  ⟨spec_C4_amended
      [{ date := some "2025-01-01", type := some "income", amount := some 5 }] none
      (by with_unfolding_all rfl),
   rfl⟩

/-- C7: for every non-empty history with parseable dates,
`calculate_confidence` returns `round(days_score * density_score, 2)`
with `days_score` stepped at spans of 90/60/30 days and `density_score`
stepped at 5 transactions per day; the score is always in [0, 1], a
90-day span with at least 5 transactions per day yields 1.0, and a
10-day span with 1 transaction per day yields 0.35. -/
theorem spec_C7 (dateStrs : List String) (dates : List Date)
    (hne : dateStrs ≠ [])
    (hp : Cashflow.parseDates dateStrs = some dates) :
    Cashflow.calculate_confidence dateStrs =
      some (round2 (Cashflow.days_score (Cashflow.daysOfData dates) *
        Cashflow.density_score dateStrs.length (Cashflow.daysOfData dates))) ∧
    (∀ c, Cashflow.calculate_confidence dateStrs = some c → 0 ≤ c ∧ c ≤ 1) ∧
    (Cashflow.daysOfData dates = 90 → 5 * 90 ≤ dateStrs.length →
      Cashflow.calculate_confidence dateStrs = some 1) ∧
    (Cashflow.daysOfData dates = 10 → dateStrs.length = 10 →
      Cashflow.calculate_confidence dateStrs = some (35/100)) := by
  have h1 : Cashflow.calculate_confidence dateStrs =
      some (round2 (Cashflow.days_score (Cashflow.daysOfData dates) *
        Cashflow.density_score dateStrs.length (Cashflow.daysOfData dates))) := by
    unfold Cashflow.calculate_confidence
    rw [hp]
  refine ⟨h1, ?_, ?_, ?_⟩
  · intro c hc
    rw [h1] at hc
    obtain rfl := Option.some.inj hc
    unfold Cashflow.days_score Cashflow.density_score
      Cashflow.MIN_DAYS_FOR_FULL_CONFIDENCE Cashflow.MID_DAYS_FOR_MEDIUM_CONFIDENCE
      Cashflow.MIN_DAYS_FOR_LOW_CONFIDENCE Cashflow.MIN_TRANSACTIONS_PER_DAY
    split_ifs <;>
      exact ⟨by with_unfolding_all decide, by with_unfolding_all decide⟩
  · intro h90 hlen
    rw [h1, h90]
    have hds : Cashflow.days_score 90 = 1 := by
      unfold Cashflow.days_score Cashflow.MIN_DAYS_FOR_FULL_CONFIDENCE
      rw [if_pos (by omega)]
    have hdens : Cashflow.density_score dateStrs.length 90 = 1 := by
      unfold Cashflow.density_score Cashflow.MIN_TRANSACTIONS_PER_DAY
      rw [if_pos ?_]
      rw [ge_iff_le, le_div_iff (by norm_num : (0:ℚ) < ((90 : ℤ) : ℚ))]
      have : ((450 : ℕ) : ℚ) ≤ (dateStrs.length : ℚ) := by
        exact_mod_cast hlen
      push_cast at this ⊢
      linarith
    rw [hds, hdens]
    norm_num
    with_unfolding_all decide
  · intro h10 hlen
    rw [h1, h10, hlen]
    have hds : Cashflow.days_score 10 = 1/2 := by
      unfold Cashflow.days_score Cashflow.MIN_DAYS_FOR_FULL_CONFIDENCE
        Cashflow.MID_DAYS_FOR_MEDIUM_CONFIDENCE Cashflow.MIN_DAYS_FOR_LOW_CONFIDENCE
      rw [if_neg (by omega), if_neg (by omega), if_neg (by omega)]
    have hdens : Cashflow.density_score 10 10 = 7/10 := by
      unfold Cashflow.density_score Cashflow.MIN_TRANSACTIONS_PER_DAY
      rw [if_neg (by push_cast; norm_num)]
    rw [hds, hdens]
    with_unfolding_all decide

/-- Witness for C7: two transactions spanning 10 days give confidence
0.35, inside [0, 1]. -/
theorem spec_C7_witness :
    Cashflow.calculate_confidence ["2025-01-01", "2025-01-10"] = some (35/100) ∧
    (0 : ℚ) ≤ 35/100 ∧ (35/100 : ℚ) ≤ 1 := by
  have h := spec_C7 ["2025-01-01", "2025-01-10"] [⟨2025, 1, 1⟩, ⟨2025, 1, 10⟩]
    (by simp) (by with_unfolding_all rfl)
  have hc : Cashflow.calculate_confidence ["2025-01-01", "2025-01-10"] = some (35/100) :=
    h.1.trans (by with_unfolding_all rfl)
  exact ⟨hc, h.2.1 (35/100) hc⟩

/-- Each outcome lands in exactly one bucket, so the five bucket lengths
add up to the number of outcomes. -/
theorem buckets_length_sum (outs : List Inventory.ItemOutcome) :
    (Inventory.criticalOf outs).length + (Inventory.warningOf outs).length +
      (Inventory.expiredOf outs).length + (Inventory.okOf outs).length +
      (Inventory.skippedOf outs).length = outs.length := by
  induction outs with
  | nil => rfl
  | cons o l ih =>
      simp only [Inventory.criticalOf, Inventory.warningOf, Inventory.expiredOf,
        Inventory.okOf, Inventory.skippedOf, Inventory.ItemOutcome.skip?,
        List.filterMap_cons] at ih ⊢
      cases o <;> simp <;> omega

/-- Structural characterization of a successful resolved batch: the
returned lists are the per-tier extractions of the per-record outcomes
and the summary is built from them. -/
theorem checkResolved_success (c : Date) (items : List Inventory.Item)
    (s : Inventory.Summary) (crit warn exp okl : List Inventory.EnrichedItem)
    (skp : List Inventory.SkipEntry) (ts : Date)
    (h : Inventory.check_inventory_expiry.checkResolved c items =
      .success s crit warn exp okl skp ts) :
    crit = Inventory.criticalOf (Inventory.outcomes c items) ∧
    warn = Inventory.warningOf (Inventory.outcomes c items) ∧
    exp = Inventory.expiredOf (Inventory.outcomes c items) ∧
    okl = Inventory.okOf (Inventory.outcomes c items) ∧
    skp = Inventory.skippedOf (Inventory.outcomes c items) ∧
    s = ⟨crit.length, warn.length, okl.length, exp.length, skp.length,
         round2 (((crit ++ warn).map (fun e => e.value_at_risk)).sum),
         round2 ((exp.map (fun e => e.value_at_risk)).sum)⟩ ∧
    ts = c := by
  unfold Inventory.check_inventory_expiry.checkResolved at h
  split at h
  · simp at h
  · dsimp only at h
    rw [Inventory.InvResult.success.injEq] at h
    obtain ⟨hs, hcrit, hwarn, hexp, hok, hskp, hts⟩ := h
    subst hcrit hwarn hexp hok hskp hts
    exact ⟨rfl, rfl, rfl, rfl, rfl, hs.symm, rfl⟩

/-- C8: in every successful inventory analysis each input record lands
in exactly one of the five buckets: the five summary counts equal the
lengths of the corresponding result lists and their sum equals the
number of input records. -/
theorem spec_C8 (now : Date) (input : Inventory.InventoryInput)
    (s : Inventory.Summary) (crit warn exp okl : List Inventory.EnrichedItem)
    (skp : List Inventory.SkipEntry) (ts : Date)
    (h : Inventory.check_inventory_expiry now input = .success s crit warn exp okl skp ts) :
    s.critical_items = crit.length ∧ s.warning_items = warn.length ∧
    s.ok_items = okl.length ∧ s.expired_items = exp.length ∧
    s.skipped_items = skp.length ∧
    crit.length + warn.length + exp.length + okl.length + skp.length =
      (Inventory.resolvedItems input).length := by
  obtain ⟨c, hc⟩ : ∃ c, Inventory.check_inventory_expiry.checkResolved c
      (Inventory.resolvedItems input) = .success s crit warn exp okl skp ts := by
    cases input with
    | other => simp [Inventory.check_inventory_expiry] at h
    | list items => exact ⟨now, h⟩
    | dict inv cd =>
        cases cd with
        | none => exact ⟨now, h⟩
        | some v =>
            have hrfl : Inventory.check_inventory_expiry now (.dict inv (some v)) =
                (match Inventory.parseCurrentDate v with
                 | none =>
                     Inventory.InvResult.error
                       "Invalid current_date format. Expected ISO format YYYY-MM-DD." now
                 | some c =>
                     Inventory.check_inventory_expiry.checkResolved c (inv.getD [])) := rfl
            rw [hrfl] at h
            revert h
            cases hp : Inventory.parseCurrentDate v with
            | none => intro h; simp at h
            | some c => intro h; exact ⟨c, h⟩
  obtain ⟨hcrit, hwarn, hexp, hok, hskp, hs, hts⟩ :=
    checkResolved_success c _ s crit warn exp okl skp ts hc
  have hlen : (Inventory.outcomes c (Inventory.resolvedItems input)).length =
      (Inventory.resolvedItems input).length := by
    simp [Inventory.outcomes]
  have hsum := buckets_length_sum (Inventory.outcomes c (Inventory.resolvedItems input))
  subst hs
  refine ⟨rfl, rfl, rfl, rfl, rfl, ?_⟩
  rw [hcrit, hwarn, hexp, hok, hskp]
  omega

/-- Witness for C8: a two-record batch (one expired, one skipped) has
summary counts 1 and 1. -/
theorem spec_C8_witness :
    (⟨0, 0, 0, 1, 1, 0, 20⟩ : Inventory.Summary).expired_items = 1 ∧
    (⟨0, 0, 0, 1, 1, 0, 20⟩ : Inventory.Summary).skipped_items = 1 := by
  have h := spec_C8 ⟨2025, 1, 1⟩
    (.list [{ item_id := some (.str "A1"), item_name := some (.str "Milk"),
              quantity := some (.num 10), unit := some (.str "L"),
              expiry_date := some (.str "2025-01-01"), purchase_price := some (.num 2) },
            {}])
    ⟨0, 0, 0, 1, 1, 0, 20⟩
    [] []
    [⟨.str "A1", .str "Milk", .num 10, .str "L", 0, .str "2025-01-01", 20,
      Inventory.expiredRecText⟩]
    []
    [⟨.str "unknown_index_1", .str "unknown",
      "Item at index 1 is missing required field: item_id"⟩]
    ⟨2025, 1, 1⟩
    (by with_unfolding_all rfl)
  exact ⟨h.2.2.2.1.trans (by rfl), h.2.2.2.2.1.trans (by rfl)⟩

/-- `round(x, 2)` is the identity on exact multiples of a cent, so
re-rounding a sum of already-rounded values does not change it. -/
theorem round2_cent (n : ℤ) : round2 ((n : ℚ) / 100) = (n : ℚ) / 100 := by
  unfold round2 roundHalfEven
  rw [div_mul_cancel₀ _ (by norm_num : (100 : ℚ) ≠ 0)]
  simp only [Int.floor_intCast, sub_self]
  rw [if_pos (by norm_num)]

/-- Every rounded value is an exact multiple of a cent. -/
theorem round2_form (q : ℚ) : ∃ n : ℤ, round2 q = (n : ℚ) / 100 :=
  ⟨roundHalfEven (q * 100), rfl⟩

/-- A sum of exact multiples of a cent is an exact multiple of a cent. -/
theorem sum_cents (l : List ℚ) (h : ∀ x ∈ l, ∃ n : ℤ, x = (n : ℚ) / 100) :
    ∃ N : ℤ, l.sum = (N : ℚ) / 100 := by
  induction l with
  | nil => exact ⟨0, by simp⟩
  | cons a l ih =>
      obtain ⟨n, hn⟩ := h a (List.mem_cons_self a l)
      obtain ⟨N, hN⟩ := ih (fun x hx => h x (List.mem_cons_of_mem a hx))
      refine ⟨n + N, ?_⟩
      rw [List.sum_cons, hn, hN, div_add_div_same]
      push_cast
      ring_nf

/-- The classifier never changes `value_at_risk`. -/
theorem classifyDays_value (d : Int) (enr : Inventory.EnrichedItem) :
    (Inventory.classifyDays d enr).value? = some enr.value_at_risk := by
  unfold Inventory.classifyDays
  split_ifs <;> rfl

/-- Any `value_at_risk` the loop body emits is the rounded
price-times-quantity of its record. -/
theorem processItem_value (c : Date) (i : Nat) (item : Inventory.Item) (v : ℚ)
    (hv : (Inventory.processItem c i item).value? = some v) :
    v = round2 (Inventory.pyFloatOr0 item.purchase_price *
      Inventory.pyFloatOr0 item.quantity) := by
  unfold Inventory.processItem at hv
  dsimp only at hv
  split at hv
  · simp [Inventory.ItemOutcome.value?] at hv
  · split at hv
    · simp [Inventory.ItemOutcome.value?] at hv
    · revert hv
      split
      · intro hv; simp [Inventory.ItemOutcome.value?] at hv
      · intro hv
        rw [classifyDays_value] at hv
        exact (Option.some.inj hv).symm

/-- Every enriched record in a tier bucket carries a cent-exact
`value_at_risk`. -/
theorem mem_bucket_value (c : Date) (items : List Inventory.Item)
    (e : Inventory.EnrichedItem)
    (he : e ∈ Inventory.criticalOf (Inventory.outcomes c items) ∨
          e ∈ Inventory.warningOf (Inventory.outcomes c items) ∨
          e ∈ Inventory.expiredOf (Inventory.outcomes c items) ∨
          e ∈ Inventory.okOf (Inventory.outcomes c items)) :
    ∃ n : ℤ, e.value_at_risk = (n : ℚ) / 100 := by
  have ho : ∃ o ∈ Inventory.outcomes c items, o.value? = some e.value_at_risk := by
    rcases he with h | h | h | h
    · obtain ⟨o, hol, hfo⟩ := List.mem_filterMap.mp h
      refine ⟨o, hol, ?_⟩
      cases o <;> simp_all [Inventory.ItemOutcome.value?]
    · obtain ⟨o, hol, hfo⟩ := List.mem_filterMap.mp h
      refine ⟨o, hol, ?_⟩
      cases o <;> simp_all [Inventory.ItemOutcome.value?]
    · obtain ⟨o, hol, hfo⟩ := List.mem_filterMap.mp h
      refine ⟨o, hol, ?_⟩
      cases o <;> simp_all [Inventory.ItemOutcome.value?]
    · obtain ⟨o, hol, hfo⟩ := List.mem_filterMap.mp h
      refine ⟨o, hol, ?_⟩
      cases o <;> simp_all [Inventory.ItemOutcome.value?]
  obtain ⟨o, hol, hval⟩ := ho
  obtain ⟨p, hp, hpo⟩ := List.mem_map.mp hol
  rw [← hpo] at hval
  have hv := processItem_value c p.1 p.2 _ hval
  rw [hv]
  exact round2_form _

/-- A record that lands in a tier bucket (is not skipped) gets
`value_at_risk = round(float(price or 0) * float(quantity or 0), 2)`. -/
theorem processItem_not_skipped_value (c : Date) (i : Nat) (item : Inventory.Item)
    (h : (Inventory.processItem c i item).bucket ≠ .skipped) :
    (Inventory.processItem c i item).value? =
      some (round2 (Inventory.pyFloatOr0 item.purchase_price *
        Inventory.pyFloatOr0 item.quantity)) := by
  revert h
  unfold Inventory.processItem
  dsimp only
  split
  · intro h; exact absurd rfl h
  · split
    · intro h; exact absurd rfl h
    · split
      · intro h; exact absurd rfl h
      · intro _
        rw [classifyDays_value]
        rfl

/-- C6: every classified item has
`value_at_risk = round(purchase_price * quantity, 2)` with a missing
`purchase_price` (or missing quantity, through the `or 0` idiom) treated
as 0, and in the returned summary `total_value_at_risk` is the sum of
`value_at_risk` over the critical and warning buckets only, while
`total_expired_value` is the sum over the expired bucket only. -/
theorem spec_C6 :
    (∀ (c : Date) (i : Nat) (item : Inventory.Item),
      (Inventory.processItem c i item).bucket ≠ .skipped →
      (Inventory.processItem c i item).value? =
        some (round2 (Inventory.pyFloatOr0 item.purchase_price *
          Inventory.pyFloatOr0 item.quantity)) ∧
      (item.purchase_price = none →
        (Inventory.processItem c i item).value? = some 0)) ∧
    (∀ (now : Date) (input : Inventory.InventoryInput) (s : Inventory.Summary)
      (crit warn exp okl : List Inventory.EnrichedItem)
      (skp : List Inventory.SkipEntry) (ts : Date),
      Inventory.check_inventory_expiry now input = .success s crit warn exp okl skp ts →
      s.total_value_at_risk = ((crit ++ warn).map (fun e => e.value_at_risk)).sum ∧
      s.total_expired_value = (exp.map (fun e => e.value_at_risk)).sum) := by
  constructor
  · intro c i item h
    have h1 := processItem_not_skipped_value c i item h
    refine ⟨h1, fun hpp => ?_⟩
    rw [h1, hpp]
    have hz : Inventory.pyFloatOr0 none = 0 := rfl
    rw [hz, zero_mul]
    have hr0 : round2 0 = 0 := by with_unfolding_all decide
    rw [hr0]
  · intro now input s crit warn exp okl skp ts h
    obtain ⟨c, hc⟩ : ∃ c, Inventory.check_inventory_expiry.checkResolved c
        (Inventory.resolvedItems input) = .success s crit warn exp okl skp ts := by
      cases input with
      | other => simp [Inventory.check_inventory_expiry] at h
      | list items => exact ⟨now, h⟩
      | dict inv cd =>
          cases cd with
          | none => exact ⟨now, h⟩
          | some v =>
              have hrfl : Inventory.check_inventory_expiry now (.dict inv (some v)) =
                  (match Inventory.parseCurrentDate v with
                   | none =>
                       Inventory.InvResult.error
                         "Invalid current_date format. Expected ISO format YYYY-MM-DD." now
                   | some c =>
                       Inventory.check_inventory_expiry.checkResolved c (inv.getD [])) := rfl
              rw [hrfl] at h
              revert h
              cases hp : Inventory.parseCurrentDate v with
              | none => intro h; simp at h
              | some c => intro h; exact ⟨c, h⟩
    obtain ⟨hcrit, hwarn, hexp, hok, hskp, hs, hts⟩ :=
      checkResolved_success c _ s crit warn exp okl skp ts hc
    subst hs
    have hmem1 : ∀ x ∈ (crit ++ warn).map (fun e => e.value_at_risk),
        ∃ n : ℤ, x = (n : ℚ) / 100 := by
      intro x hx
      obtain ⟨e, he, hex⟩ := List.mem_map.mp hx
      subst hex
      apply mem_bucket_value c (Inventory.resolvedItems input)
      rcases List.mem_append.mp he with h' | h'
      · exact Or.inl (hcrit ▸ h')
      · exact Or.inr (Or.inl (hwarn ▸ h'))
    have hmem2 : ∀ x ∈ exp.map (fun e => e.value_at_risk),
        ∃ n : ℤ, x = (n : ℚ) / 100 := by
      intro x hx
      obtain ⟨e, he, hex⟩ := List.mem_map.mp hx
      subst hex
      exact mem_bucket_value c (Inventory.resolvedItems input) e
        (Or.inr (Or.inr (Or.inl (hexp ▸ he))))
    obtain ⟨N1, hN1⟩ := sum_cents ((crit ++ warn).map (fun e => e.value_at_risk)) hmem1
    obtain ⟨N2, hN2⟩ := sum_cents (exp.map (fun e => e.value_at_risk)) hmem2
    constructor
    · show round2 (((crit ++ warn).map (fun e => e.value_at_risk)).sum) = _
      rw [hN1, round2_cent]
    · show round2 ((exp.map (fun e => e.value_at_risk)).sum) = _
      rw [hN2, round2_cent]

/-- Witness for C6: a record without `purchase_price` gets value 0;
the single-expired-Milk batch has `total_expired_value` equal to the
expired bucket sum. -/
theorem spec_C6_witness :
    (Inventory.processItem ⟨2025, 1, 1⟩ 0
      { item_id := some (.str "B1"), item_name := some (.str "Egg"),
        quantity := some (.num 5), unit := some (.str "pc"),
        expiry_date := some (.str "2025-01-05") }).value? = some 0 ∧
    (⟨0, 0, 0, 1, 0, 0, 20⟩ : Inventory.Summary).total_expired_value =
      (([⟨.str "A1", .str "Milk", .num 10, .str "L", 0, .str "2025-01-01", 20,
          Inventory.expiredRecText⟩] : List Inventory.EnrichedItem).map
        (fun e => e.value_at_risk)).sum := by
  have h1 := spec_C6.1 ⟨2025, 1, 1⟩ 0
    { item_id := some (.str "B1"), item_name := some (.str "Egg"),
      quantity := some (.num 5), unit := some (.str "pc"),
      expiry_date := some (.str "2025-01-05") }
    (by with_unfolding_all decide)
  have h2 := spec_C6.2 ⟨2025, 6, 1⟩
    (.dict (some [{ item_id := some (.str "A1"), item_name := some (.str "Milk"),
                    quantity := some (.num 10), unit := some (.str "L"),
                    expiry_date := some (.str "2025-01-01"),
                    purchase_price := some (.num 2) }])
      (some (.str "2025-01-01")))
    ⟨0, 0, 0, 1, 0, 0, 20⟩ [] []
    [⟨.str "A1", .str "Milk", .num 10, .str "L", 0, .str "2025-01-01", 20,
      Inventory.expiredRecText⟩]
    [] [] ⟨2025, 1, 1⟩
    (by with_unfolding_all rfl)
  exact ⟨h1.2 rfl, h2.2⟩

/-- If no required field is reported missing, the identifier and name
keys are present. -/
theorem firstMissingField_none (it : Inventory.Item)
    (h : Inventory.firstMissingField it = none) :
    it.item_id ≠ none ∧ it.item_name ≠ none := by
  unfold Inventory.firstMissingField at h
  by_cases h1 : it.item_id.isNone
  · rw [if_pos h1] at h
    exact absurd h (by simp)
  · rw [if_neg h1] at h
    by_cases h2 : it.item_name.isNone
    · rw [if_pos h2] at h
      exact absurd h (by simp)
    · exact ⟨fun he => h1 (by rw [he]; rfl), fun he => h2 (by rw [he]; rfl)⟩

/-- A record that passes validation has no missing required field. -/
theorem validate_true_fields (it : Inventory.Item) (i : Nat)
    (hv : (Inventory.validate_item it i).1 = true) :
    Inventory.firstMissingField it = none := by
  by_contra hne'
  obtain ⟨f, hf⟩ := Option.ne_none_iff_exists'.mp hne'
  unfold Inventory.validate_item at hv
  rw [hf] at hv
  simp at hv

/-- C10: on any non-empty list of record dicts, whatever the field
values, `check_inventory_expiry` never raises (the embedding is total):
it returns a `status = success` result whose `skipped_items` are exactly
the per-record skip outcomes, a skipped record whose `item_id` /
`item_name` keys are absent gets the fallback identifier
`unknown_index_<index>` / name `unknown`, and every per-record anomaly —
failed validation, or a missing/`None`/unparseable `expiry_date` — lands
in the skipped bucket. -/
theorem spec_C10 (now : Date) (items : List Inventory.Item) (hne : items ≠ []) :
    (Inventory.check_inventory_expiry now (.list items)).status = "success" ∧
    (Inventory.check_inventory_expiry now (.list items)).skippedList =
      items.enum.filterMap (fun p => (Inventory.processItem now p.1 p.2).skip?) ∧
    (∀ (i : Nat) (it : Inventory.Item) (e : Inventory.SkipEntry),
      Inventory.processItem now i it = .skip e →
      (it.item_id = none → e.item_id = .str ("unknown_index_" ++ toString i)) ∧
      (it.item_name = none → e.item_name = .str ("unknown"))) ∧
    (∀ (i : Nat) (it : Inventory.Item),
      ((Inventory.validate_item it i).1 = false ∨
       it.expiry_date.getD .pynone = .pynone ∨
       Inventory.parsedExpiry (it.expiry_date.getD .pynone) = none) →
      (Inventory.processItem now i it).bucket = .skipped) := by
  have h0 : Inventory.check_inventory_expiry now (.list items) =
      Inventory.check_inventory_expiry.checkResolved now items := rfl
  have hie : items.isEmpty = false := by
    cases items with
    | nil => exact absurd rfl hne
    | cons a l => rfl
  refine ⟨?_, ?_, ?_, ?_⟩
  · rw [h0, checkResolved_status, hie]
    rfl
  · have h1 : (Inventory.check_inventory_expiry.checkResolved now items).skippedList =
        Inventory.skippedOf (Inventory.outcomes now items) := by
      unfold Inventory.check_inventory_expiry.checkResolved
      rw [if_neg (by simp [hie])]
      rfl
    rw [h0, h1]
    unfold Inventory.skippedOf Inventory.outcomes
    rw [List.filterMap_map]
    rfl
  · intro i it e hskip
    by_cases hval : (Inventory.validate_item it i).1 = false
    · unfold Inventory.processItem at hskip
      dsimp only at hskip
      rw [if_pos hval] at hskip
      have he := (Inventory.ItemOutcome.skip.injEq _ _).mp hskip
      constructor
      · intro hid
        rw [← he, hid]
        rfl
      · intro hname
        rw [← he, hname]
        rfl
    · have hv : (Inventory.validate_item it i).1 = true := by
        revert hval
        cases (Inventory.validate_item it i).1 <;> simp
      obtain ⟨hid, hname⟩ := firstMissingField_none it (validate_true_fields it i hv)
      exact ⟨fun h' => absurd h' hid, fun h' => absurd h' hname⟩
  · intro i it hano
    unfold Inventory.processItem
    dsimp only
    by_cases hval : (Inventory.validate_item it i).1 = false
    · rw [if_pos hval]
      rfl
    · have hv : (Inventory.validate_item it i).1 = true := by
        revert hval
        cases (Inventory.validate_item it i).1 <;> simp
      simp only [hv]
      rw [if_neg (show ¬(true = false) by decide)]
      rcases hano with h | h | h
      · exact absurd h hval
      · rw [if_pos h]
        rfl
      · by_cases hpn : it.expiry_date.getD .pynone = .pynone
        · rw [if_pos hpn]
          rfl
        · rw [if_neg hpn, h]
          rfl

/-- Witness for C10: a batch holding one empty dict succeeds, with one
skip entry carrying the fallback identifier and name. -/
theorem spec_C10_witness :
    (Inventory.check_inventory_expiry ⟨2025, 1, 1⟩
      (.list [({} : Inventory.Item)])).status = "success" ∧
    (Inventory.check_inventory_expiry ⟨2025, 1, 1⟩
      (.list [({} : Inventory.Item)])).skippedList =
      [⟨.str "unknown_index_0", .str "unknown",
        "Item at index 0 is missing required field: item_id"⟩] := by
  have h := spec_C10 ⟨2025, 1, 1⟩ [({} : Inventory.Item)] (by simp)
  exact ⟨h.1, h.2.1.trans (by with_unfolding_all rfl)⟩
